import Mathlib

/-!
# Verification of the dice-game bet-resolution instruction

Shallow embedding of `programs/anchor-dice-game-q4-25/src/instructions/resolve_bet.rs`:
the Ed25519 signature-verification predicate `verify_ed25519_signature` and the
settlement logic `resolve_bet` (roll derivation from the signature digest, win
condition, fee-adjusted payout with checked arithmetic).

Machine integers are modelled as `Nat` with explicit `% 2^w` where the Rust code
wraps (`wrapping_add`, `as u8`), and with explicit bound checks where the Rust
code uses `checked_mul` / `checked_div`.  Byte strings (signatures, messages,
instruction data) are `List Nat`; public keys and program ids are abstract `Nat`
identities, since only equality on them is ever used by the source.

External primitives (the SHA-256 hash of `solana_program::hash::hash`, the
`Ed25519InstructionSignatures::unpack` parser of the `anchor_instruction_sysvar`
crate) are taken as function parameters: every theorem quantifies over them, and
witnesses instantiate them with concrete functions.
-/

namespace DiceGame

/-- `HOUSE_FEE` from `resolve_bet.rs` line 14: the fixed basis-point fee. -/
def HOUSE_FEE : Nat := 150

/-- Largest value representable in an unsigned 64-bit integer. -/
def U64_MAX : Nat := 2 ^ 64 - 1

/-- Modulus of `u128` arithmetic. -/
def U128_MOD : Nat := 2 ^ 128

/-- The error kinds of `DiceError` that `resolve_bet.rs` raises.  Distinct
constructors of the Rust enum are distinct values. -/
inductive DiceError where
  | Ed25519Program
  | Ed25519Accounts
  | Ed25519DataLength
  | Ed25519Signature
  | Ed25519Header
  | Ed25519Pubkey
  | Ed25519Message
  | Overflow
  deriving DecidableEq

/-- The full error type of resolution: either a `DiceError`, the propagated
sysvar error of `load_instruction_at_checked` failing (the `?` on line 48), or
a Rust panic (the `.unwrap()` on line 107 would panic on `None`). -/
inductive ResolveError where
  | sysvar
  | panicked
  | dice (e : DiceError)
  deriving DecidableEq

/-- One parsed entry of the Ed25519 verification instruction, as exposed by
`anchor_instruction_sysvar`: a verifiability flag and three optional fields. -/
structure SigEntry where
  is_verifiable : Bool
  public_key : Option Nat
  signature : Option (List Nat)
  message : Option (List Nat)
  deriving DecidableEq

/-- A transaction instruction as seen through the instructions sysvar:
a program identity, declared accounts, and raw data. -/
structure Instruction where
  program_id : Nat
  accounts : List Nat
  data : List Nat
  deriving DecidableEq

/-- The fixed identity of the Ed25519 signature-verification program
(`ed25519_program::ID`); only equality against it matters. -/
def ed25519ProgramId : Nat := 0

/-- The persistent `Bet` record (fields as used by `resolve_bet.rs`). -/
structure Bet where
  player : Nat
  seed : Nat
  roll : Nat
  amount : Nat
  bump : Nat
  deriving DecidableEq

/-- Little-endian byte encoding of `x` on `n` bytes. -/
def natToLeBytes (n x : Nat) : List Nat :=
  (List.range n).map (fun i => x / 256 ^ i % 256)

/-- Modelled from the spec: `Bet::to_slice` (declared in the state module,
which is not under `src/`) — the canonical fixed-layout byte serialization of
the bet's fields (player, seed, roll, amount, bump), "byte-identical between
creation and resolution". -/
def Bet.to_slice (b : Bet) : List Nat :=
  natToLeBytes 32 b.player ++ natToLeBytes 16 b.seed ++ [b.roll % 256] ++
    natToLeBytes 8 b.amount ++ [b.bump % 256]

/-- `u128::from_le_bytes`: little-endian value of a byte list. -/
def u128_from_le_bytes (bs : List Nat) : Nat :=
  bs.foldr (fun b acc => b + 256 * acc) 0

/-- Roll derivation from the 32-byte digest (`resolve_bet.rs` lines 90-98):
split into two 16-byte little-endian `u128`s, wrapping add, `wrapping_rem 100`,
add one, cast `as u8`. -/
def rollFromDigest (digest : List Nat) : Nat :=
  let lower := u128_from_le_bytes (digest.take 16)
  let upper := u128_from_le_bytes (digest.drop 16)
  ((lower + upper) % U128_MOD % 100 + 1) % 256

/-- The derived roll as a function of the raw signature bytes: hash then split
(`resolve_bet.rs` lines 88-98).  `hashFn` stands for the fixed SHA-256 of
`solana_program::hash::hash`. -/
def rollFromSig (hashFn : List Nat → List Nat) (sig : List Nat) : Nat :=
  rollFromDigest (hashFn sig)

/-- `u64::checked_mul`: `none` when the product exceeds `U64_MAX`. -/
def checked_mul_u64 (a b : Nat) : Option Nat :=
  if a * b ≤ U64_MAX then some (a * b) else none

/-- `u64::checked_div`: `none` exactly when the divisor is zero. -/
def checked_div_u64 (a b : Nat) : Option Nat :=
  if b = 0 then none else some (a / b)

/-- `u64::checked_sub`: `none` when the subtraction would underflow. -/
def checked_sub_u64 (a b : Nat) : Option Nat :=
  if b ≤ a then some (a - b) else none

/-- The winning-payout computation (`resolve_bet.rs` lines 101-107):
`amount.checked_mul(10_000 - HOUSE_FEE).ok_or(Overflow)?.checked_div(10_000).unwrap()`. -/
def computePayout (amount : Nat) : Except ResolveError Nat :=
  match checked_mul_u64 amount (10000 - HOUSE_FEE) with
  | none => .error (.dice .Overflow)
  | some p =>
    match checked_div_u64 p 10000 with
    | none => .error .panicked
    | some q => .ok q

/-- Result of settlement: a win transfers `payout` lamports from the vault to
the player; a loss transfers nothing.  (In both cases the surrounding account
constraints close the Bet record.) -/
inductive SettleOutcome where
  | win (payout : Nat)
  | loss
  deriving DecidableEq

/-- `ResolveBet::resolve_bet` (`resolve_bet.rs` lines 87-123): derive the roll
from the hash of the signature bytes, compare against the bet's threshold with
`bet.roll >= roll`, and on a win compute and transfer the fee-adjusted payout. -/
def resolve_bet (hashFn : List Nat → List Nat) (bet : Bet) (sig : List Nat) :
    Except ResolveError SettleOutcome :=
  let roll := rollFromDigest (hashFn sig)
  if bet.roll ≥ roll then
    match computePayout bet.amount with
    | .error e => .error e
    | .ok payout => .ok (.win payout)
  else
    .ok .loss

/-- `ResolveBet::verify_ed25519_signature` (`resolve_bet.rs` lines 47-85):
load the instruction at transaction position 0, check it is the Ed25519
program with no accounts, unpack its data into exactly one signature entry,
and bind that entry's flag, signer, signature bytes and message to the bet
being resolved.  `unpack` stands for `Ed25519InstructionSignatures::unpack`. -/
def verify_ed25519_signature (unpack : List Nat → Option (List SigEntry))
    (instrs : List Instruction) (player_key : Nat) (bet : Bet) (sig : List Nat) :
    Except ResolveError Unit :=
  match instrs.get? 0 with
  | none => .error .sysvar
  | some ed25519_ix =>
    if ed25519_ix.program_id ≠ ed25519ProgramId then .error (.dice .Ed25519Program)
    else if ed25519_ix.accounts.length ≠ 0 then .error (.dice .Ed25519Accounts)
    else
      match unpack ed25519_ix.data with
      | none => .error (.dice .Ed25519DataLength)
      | some signatures =>
        match signatures with
        | [signature] =>
          if ¬ signature.is_verifiable then .error (.dice .Ed25519Header)
          else
            match signature.public_key with
            | none => .error (.dice .Ed25519Pubkey)
            | some pk =>
              if pk ≠ player_key then .error (.dice .Ed25519Pubkey)
              else
                match signature.signature with
                | none => .error (.dice .Ed25519Signature)
                | some s =>
                  if s ≠ sig then .error (.dice .Ed25519Signature)
                  else
                    match signature.message with
                    | none => .error (.dice .Ed25519Message)
                    | some m =>
                      if m ≠ bet.to_slice then .error (.dice .Ed25519Message)
                      else .ok ()
        | _ => .error (.dice .Ed25519Signature)

/-- Modelled from the spec: the resolution entrypoint (the `lib.rs` handler,
not under `src/`) runs signature verification and only on success proceeds to
settlement ("signature-verification record → Signature Verification Component
(pass/fail) → Settlement Component"). -/
def resolveHandler (unpack : List Nat → Option (List SigEntry))
    (instrs : List Instruction) (hashFn : List Nat → List Nat)
    (player_key : Nat) (bet : Bet) (sig : List Nat) :
    Except ResolveError SettleOutcome :=
  match verify_ed25519_signature unpack instrs player_key bet sig with
  | .error e => .error e
  | .ok _ => resolve_bet hashFn bet sig

/-- The single parsed entry the verifier operates on, when the record at
position 0 unpacks to exactly one entry. -/
def parsedEntry (unpack : List Nat → Option (List SigEntry))
    (instrs : List Instruction) : Option SigEntry :=
  match instrs.get? 0 with
  | none => none
  | some ix =>
    match unpack ix.data with
    | some [e] => some e
    | _ => none

/-- Decidable equality for `Except`, so that concrete runs of the embedded
code can be checked by `decide`. -/
def exceptDecEq {e a : Type} [DecidableEq e] [DecidableEq a] :
    DecidableEq (Except e a) := fun x y =>
  match x, y with
  | .error u, .error v =>
    if h : u = v then .isTrue (by rw [h]) else .isFalse (fun hc => by cases hc; exact h rfl)
  | .error _, .ok _ => .isFalse (fun hc => by cases hc)
  | .ok _, .error _ => .isFalse (fun hc => by cases hc)
  | .ok u, .ok v =>
    if h : u = v then .isTrue (by rw [h]) else .isFalse (fun hc => by cases hc; exact h rfl)

instance {e a : Type} [DecidableEq e] [DecidableEq a] : DecidableEq (Except e a) :=
  exceptDecEq

/-- A digest whose derived roll is exactly 50: lower half 49, upper half 0. -/
def digest50 : List Nat := 49 :: List.replicate 31 0

/-- A digest whose derived roll is exactly 51. -/
def digest51 : List Nat := 50 :: List.replicate 31 0

/-- A hash function standing in for SHA-256 in concrete witnesses,
returning `digest50`. -/
def hash50 : List Nat → List Nat := fun _ => digest50

/-- A hash function standing in for SHA-256 in concrete witnesses,
returning `digest51`. -/
def hash51 : List Nat → List Nat := fun _ => digest51

/-- A concrete bet at the 50 threshold with stake 10000. -/
def betW : Bet := ⟨7, 0, 50, 10000, 254⟩

/-- A bet whose stake makes the payout multiplication overflow a `u64`. -/
def betOv : Bet := ⟨7, 0, 50, 2 ^ 64 - 1, 254⟩

/-- A concrete accountless Ed25519-program instruction whose data is ignored
by the concrete `unpack` functions below. -/
def ix0 : Instruction := ⟨ed25519ProgramId, [], []⟩

/-- A transaction whose position-0 instruction is `ix0`. -/
def instrs0 : List Instruction := [ix0]

/-- A transaction whose position-0 instruction is owned by another program. -/
def instrsWrongProg : List Instruction := [⟨ed25519ProgramId + 1, [], []⟩]

/-- A transaction whose position-0 Ed25519 instruction declares an account. -/
def instrsWithAcc : List Instruction := [⟨ed25519ProgramId, [3], []⟩]

/-- A concrete bet; `betB0` differs from it only in the seed, so their
canonical byte representations differ. -/
def betA0 : Bet := ⟨7, 0, 50, 1000, 254⟩

/-- A bet with a different seed than `betA0`. -/
def betB0 : Bet := ⟨7, 1, 50, 1000, 254⟩

/-- An entry fully matching `betA0`, player key 7, signature bytes [1, 2]. -/
def entryOk : SigEntry := ⟨true, some 7, some [1, 2], some betA0.to_slice⟩

/-- Like `entryOk` but carrying different signature bytes. -/
def entryBadSig : SigEntry := ⟨true, some 7, some [9, 9], some betA0.to_slice⟩

/-- Like `entryOk` but with the message field absent. -/
def entryNoMsg : SigEntry := ⟨true, some 7, some [1, 2], none⟩

/-- Like `entryOk` but carrying a wrong message. -/
def entryBadMsg : SigEntry := ⟨true, some 7, some [1, 2], some [0]⟩

/-- Unpack function yielding exactly the matching entry. -/
def unpackOk : List Nat → Option (List SigEntry) := fun _ => some [entryOk]

/-- Unpack function yielding two entries (wrong signature count). -/
def unpackTwo : List Nat → Option (List SigEntry) := fun _ => some [entryOk, entryOk]

/-- Unpack function yielding one entry with mismatched signature bytes. -/
def unpackBadSig : List Nat → Option (List SigEntry) := fun _ => some [entryBadSig]

/-- Unpack function yielding one entry with no message. -/
def unpackNoMsg : List Nat → Option (List SigEntry) := fun _ => some [entryNoMsg]

/-- Unpack function yielding one entry with a mismatched message. -/
def unpackBadMsg : List Nat → Option (List SigEntry) := fun _ => some [entryBadMsg]

/-- Unpack function that fails to parse. -/
def unpackNone : List Nat → Option (List SigEntry) := fun _ => none

/-- Closed form of the payout computation: `Ok (amount * 9850 / 10000)` when
the product fits in a `u64`, the `Overflow` error otherwise.  In particular
the `checked_div(10_000).unwrap()` never panics. -/
theorem computePayout_eq (amount : Nat) :
    computePayout amount =
      if amount * (10000 - HOUSE_FEE) ≤ U64_MAX then
        Except.ok (amount * (10000 - HOUSE_FEE) / 10000)
      else Except.error (ResolveError.dice DiceError.Overflow) := by
  by_cases h : amount * (10000 - HOUSE_FEE) ≤ U64_MAX
  · simp [computePayout, checked_mul_u64, checked_div_u64, h]
  · simp [computePayout, checked_mul_u64, checked_div_u64, h]

/-- `resolve_bet` branches on `bet.roll ≥ roll` and otherwise only repackages
the payout computation. -/
theorem resolve_bet_eq (hashFn : List Nat → List Nat) (bet : Bet) (sig : List Nat) :
    resolve_bet hashFn bet sig =
      if rollFromDigest (hashFn sig) ≤ bet.roll then
        (match computePayout bet.amount with
         | .error e => .error e
         | .ok payout => .ok (.win payout))
      else .ok .loss := rfl

/-- Closed form of settlement on the winning branch. -/
theorem resolve_bet_win_eq (hashFn : List Nat → List Nat) (bet : Bet) (sig : List Nat)
    (hwin : rollFromDigest (hashFn sig) ≤ bet.roll) :
    resolve_bet hashFn bet sig =
      if bet.amount * (10000 - HOUSE_FEE) ≤ U64_MAX then
        Except.ok (SettleOutcome.win (bet.amount * (10000 - HOUSE_FEE) / 10000))
      else Except.error (ResolveError.dice DiceError.Overflow) := by
  rw [resolve_bet_eq, if_pos hwin, computePayout_eq]
  by_cases h : bet.amount * (10000 - HOUSE_FEE) ≤ U64_MAX
  · rw [if_pos h, if_pos h]
  · rw [if_neg h, if_neg h]

/-- Success of the verifier forces every check: the record at position 0 is
an accountless Ed25519-program instruction whose data unpacks to exactly one
verifiable entry binding the player's key, the supplied signature bytes, and
the bet's canonical bytes. -/
theorem verify_ok_elim (unpack : List Nat → Option (List SigEntry))
    (instrs : List Instruction) (pk : Nat) (bet : Bet) (sig : List Nat)
    (h : verify_ed25519_signature unpack instrs pk bet sig = Except.ok ()) :
    ∃ ix e, instrs.get? 0 = some ix ∧ ix.program_id = ed25519ProgramId ∧
      ix.accounts.length = 0 ∧ unpack ix.data = some [e] ∧
      e.is_verifiable = true ∧ e.public_key = some pk ∧
      e.signature = some sig ∧ e.message = some bet.to_slice := by
  unfold verify_ed25519_signature at h
  iterate 14 all_goals (try split at h)
  all_goals simp_all

/-- When every check up to the message comparison passes but the signed
message differs from the bet's canonical bytes, the verifier returns exactly
the message-mismatch error. -/
theorem verify_message_mismatch (unpack : List Nat → Option (List SigEntry))
    (instrs : List Instruction) (pk : Nat) (bet : Bet) (sig : List Nat)
    (ix : Instruction) (e : SigEntry) (m : List Nat)
    (h0 : instrs.get? 0 = some ix) (h1 : ix.program_id = ed25519ProgramId)
    (h2 : ix.accounts.length = 0) (h3 : unpack ix.data = some [e])
    (h4 : e.is_verifiable = true) (h5 : e.public_key = some pk)
    (h6 : e.signature = some sig) (h7 : e.message = some m)
    (h8 : m ≠ bet.to_slice) :
    verify_ed25519_signature unpack instrs pk bet sig =
      Except.error (ResolveError.dice DiceError.Ed25519Message) := by
  have h0g : instrs[0]? = some ix := by simpa [List.get?_eq_getElem?] using h0
  have h2e : ix.accounts = [] := List.length_eq_zero.mp h2
  unfold verify_ed25519_signature
  simp [h0g, h1, h2e, h3, h4, h5, h6, h7, h8]

/-- C2: for every 32-byte digest — the all-zero and all-one digests included —
the derived roll, computed by splitting the digest into two 16-byte
little-endian integers and taking `((lower + upper) mod 100) + 1` with
wrapping addition, lies in the inclusive range [1, 100]. -/
theorem roll_range_C2 (d : List Nat) (hlen : d.length = 32)
    (hbytes : ∀ b ∈ d, b < 256) :
    1 ≤ rollFromDigest d ∧ rollFromDigest d ≤ 100 := by
  have key : ∀ x : Nat, 1 ≤ (x % 100 + 1) % 256 ∧ (x % 100 + 1) % 256 ≤ 100 := by
    intro x
    have h : x % 100 < 100 := Nat.mod_lt x (by norm_num)
    have h2 : (x % 100 + 1) % 256 = x % 100 + 1 := Nat.mod_eq_of_lt (by omega)
    omega
  exact key _

/-- Witness for C2 at the all-zero and all-ones digests. -/
theorem roll_range_C2_witness :
    ((List.replicate 32 0).length = 32 ∧
      1 ≤ rollFromDigest (List.replicate 32 0) ∧
      rollFromDigest (List.replicate 32 0) ≤ 100) ∧
    ((List.replicate 32 255).length = 32 ∧
      1 ≤ rollFromDigest (List.replicate 32 255) ∧
      rollFromDigest (List.replicate 32 255) ≤ 100) :=
  ⟨⟨by decide, roll_range_C2 (List.replicate 32 0) (by decide) (by decide)⟩,
   ⟨by decide, roll_range_C2 (List.replicate 32 255) (by decide) (by decide)⟩⟩

/-- C3: the win condition is inclusive.  With no payout overflow, settlement
returns a win exactly when the derived roll is at most `bet.roll`, and a loss
exactly when the derived roll exceeds it (so bet.roll = 50 wins against a
derived 50 and loses against a derived 51). -/
theorem win_condition_C3 (hashFn : List Nat → List Nat) (bet : Bet) (sig : List Nat)
    (hov : bet.amount * (10000 - HOUSE_FEE) ≤ U64_MAX) :
    (resolve_bet hashFn bet sig =
        Except.ok (SettleOutcome.win (bet.amount * (10000 - HOUSE_FEE) / 10000)) ↔
      rollFromDigest (hashFn sig) ≤ bet.roll) ∧
    (resolve_bet hashFn bet sig = Except.ok SettleOutcome.loss ↔
      bet.roll < rollFromDigest (hashFn sig)) := by
  by_cases hwin : rollFromDigest (hashFn sig) ≤ bet.roll
  · rw [resolve_bet_win_eq hashFn bet sig hwin, if_pos hov]
    exact ⟨⟨fun _ => hwin, fun _ => rfl⟩,
      ⟨fun hc => by simp at hc, fun hlt => absurd hlt (not_lt.mpr hwin)⟩⟩
  · rw [resolve_bet_eq, if_neg hwin]
    exact ⟨⟨fun hc => by simp at hc, fun hle => absurd hle hwin⟩,
      ⟨fun _ => not_le.mp hwin, fun _ => rfl⟩⟩

/-- Witness for C3 at the 50/50 boundary (a win) and 50/51 (a loss). -/
theorem win_condition_C3_witness :
    resolve_bet hash50 betW [] =
      Except.ok (SettleOutcome.win (betW.amount * (10000 - HOUSE_FEE) / 10000)) ∧
    resolve_bet hash51 betW [] = Except.ok SettleOutcome.loss :=
  ⟨(win_condition_C3 hash50 betW [] (by decide)).1.mpr (by decide),
   (win_condition_C3 hash51 betW [] (by decide)).2.mpr (by decide)⟩

/-- C4: on a win the payout equals `amount * (10000 - 150) / 10000` in
truncating integer arithmetic (concretely 10000 ↦ 9850 and 3 ↦ 2, see the
witness). -/
theorem payout_formula_C4 (amount : Nat)
    (hov : amount * (10000 - HOUSE_FEE) ≤ U64_MAX) :
    computePayout amount = Except.ok (amount * (10000 - HOUSE_FEE) / 10000) := by
  rw [computePayout_eq, if_pos hov]

/-- Witness for C4: amounts 10000 and 3 give payouts 9850 and 2. -/
theorem payout_formula_C4_witness :
    computePayout 10000 = Except.ok 9850 ∧ computePayout 3 = Except.ok 2 := by
  constructor
  · have h := payout_formula_C4 10000 (by decide)
    norm_num [HOUSE_FEE] at h
    exact h
  · have h := payout_formula_C4 3 (by decide)
    norm_num [HOUSE_FEE] at h
    exact h

/-- C5: the fee subtraction `10000 - HOUSE_FEE` cannot underflow (checked and
plain subtraction agree on it), and whenever the payout multiplication
overflows the u64 range, settlement fails with the Overflow error kind
instead of producing a wrapped payout. -/
theorem overflow_guard_C5 (hashFn : List Nat → List Nat) (bet : Bet) (sig : List Nat)
    (hwin : rollFromDigest (hashFn sig) ≤ bet.roll)
    (hov : U64_MAX < bet.amount * (10000 - HOUSE_FEE)) :
    resolve_bet hashFn bet sig = Except.error (ResolveError.dice DiceError.Overflow) ∧
      checked_sub_u64 10000 HOUSE_FEE = some (10000 - HOUSE_FEE) := by
  refine ⟨?_, by decide⟩
  rw [resolve_bet_win_eq hashFn bet sig hwin, if_neg (not_le.mpr hov)]

/-- Witness for C5: a winning bet staking `2^64 - 1` hits the Overflow error. -/
theorem overflow_guard_C5_witness :
    resolve_bet hash50 betOv [] = Except.error (ResolveError.dice DiceError.Overflow) ∧
      checked_sub_u64 10000 HOUSE_FEE = some (10000 - HOUSE_FEE) :=
  overflow_guard_C5 hash50 betOv [] (by decide) (by decide)

/-- C8: the derived roll is a deterministic pure function of the raw signature
bytes: two resolutions given byte-identical signatures derive the same roll. -/
theorem roll_deterministic_C8 (hashFn : List Nat → List Nat) (sig1 sig2 : List Nat)
    (h : sig1 = sig2) : rollFromSig hashFn sig1 = rollFromSig hashFn sig2 := by
  rw [h]

/-- Witness for C8. -/
theorem roll_deterministic_C8_witness :
    rollFromSig hash50 [3, 1, 4] = rollFromSig hash50 [3, 1, 4] :=
  roll_deterministic_C8 hash50 [3, 1, 4] [3, 1, 4] rfl

/-- C9: any successfully computed winning payout is at most the staked
amount, so a win never drains more than the bet's own stake from the vault. -/
theorem payout_le_amount_C9 (amount p : Nat)
    (h : computePayout amount = Except.ok p) : p ≤ amount := by
  rw [computePayout_eq] at h
  by_cases hov : amount * (10000 - HOUSE_FEE) ≤ U64_MAX
  · rw [if_pos hov] at h
    cases h
    have hfee : 10000 - HOUSE_FEE = 9850 := by norm_num [HOUSE_FEE]
    rw [hfee]
    omega
  · rw [if_neg hov] at h
    cases h

/-- Witness for C9 at amount 10000. -/
theorem payout_le_amount_C9_witness :
    computePayout 10000 = Except.ok 9850 ∧ 9850 ≤ 10000 :=
  ⟨by decide, payout_le_amount_C9 10000 9850 (by decide)⟩

/-- C10: on a winning bet, settlement returns the Overflow error exactly when
`amount * 9850` exceeds `U64_MAX` (equivalently `amount > U64_MAX / 9850`);
for every smaller amount the payout computation succeeds, and the final
division by 10000 never panics. -/
theorem overflow_iff_C10 (hashFn : List Nat → List Nat) (bet : Bet) (sig : List Nat)
    (hwin : rollFromDigest (hashFn sig) ≤ bet.roll) :
    (resolve_bet hashFn bet sig = Except.error (ResolveError.dice DiceError.Overflow) ↔
        U64_MAX / (10000 - HOUSE_FEE) < bet.amount) ∧
    (U64_MAX / (10000 - HOUSE_FEE) < bet.amount ↔
        U64_MAX < bet.amount * (10000 - HOUSE_FEE)) ∧
    (bet.amount * (10000 - HOUSE_FEE) ≤ U64_MAX →
      resolve_bet hashFn bet sig =
        Except.ok (SettleOutcome.win (bet.amount * (10000 - HOUSE_FEE) / 10000))) ∧
    resolve_bet hashFn bet sig ≠ Except.error ResolveError.panicked := by
  have hiff : U64_MAX / (10000 - HOUSE_FEE) < bet.amount ↔
      U64_MAX < bet.amount * (10000 - HOUSE_FEE) :=
    Nat.div_lt_iff_lt_mul (by norm_num [HOUSE_FEE])
  rw [resolve_bet_win_eq hashFn bet sig hwin]
  by_cases hov : bet.amount * (10000 - HOUSE_FEE) ≤ U64_MAX
  · rw [if_pos hov]
    refine ⟨⟨fun hc => by simp at hc,
        fun hlt => absurd (hiff.mp hlt) (not_lt.mpr hov)⟩, hiff, fun _ => rfl, by simp⟩
  · rw [if_neg hov]
    refine ⟨⟨fun _ => hiff.mpr (not_le.mp hov), fun _ => rfl⟩, hiff,
        fun hc => absurd hc hov, by simp⟩

/-- Witness for C10: a non-overflowing winning bet settles with the truncated
payout. -/
theorem overflow_iff_C10_witness :
    resolve_bet hash50 betW [] =
      Except.ok (SettleOutcome.win (betW.amount * (10000 - HOUSE_FEE) / 10000)) :=
  (overflow_iff_C10 hash50 betW [] (by decide)).2.2.1 (by decide)

/-- C1: verification succeeds only if the signed message equals the canonical
bytes (`to_slice`) of the exact bet being resolved, and presenting the same
record against any bet whose canonical bytes differ fails with the
message-mismatch error kind, with no settlement reached by the handler. -/
theorem message_binding_C1 (unpack : List Nat → Option (List SigEntry))
    (instrs : List Instruction) (hashFn : List Nat → List Nat)
    (pk : Nat) (betA betB : Bet) (sig : List Nat)
    (hok : verify_ed25519_signature unpack instrs pk betA sig = Except.ok ()) :
    (∃ e, parsedEntry unpack instrs = some e ∧ e.message = some betA.to_slice) ∧
    (betB.to_slice ≠ betA.to_slice →
      verify_ed25519_signature unpack instrs pk betB sig =
        Except.error (ResolveError.dice DiceError.Ed25519Message) ∧
      resolveHandler unpack instrs hashFn pk betB sig =
        Except.error (ResolveError.dice DiceError.Ed25519Message)) := by
  obtain ⟨ix, e, h0, h1, h2, h3, h4, h5, h6, h7⟩ :=
    verify_ok_elim unpack instrs pk betA sig hok
  have h0g : instrs[0]? = some ix := by simpa [List.get?_eq_getElem?] using h0
  constructor
  · exact ⟨e, by simp [parsedEntry, h0g, h3], h7⟩
  · intro hne
    have hv := verify_message_mismatch unpack instrs pk betB sig ix e betA.to_slice
      h0 h1 h2 h3 h4 h5 h6 h7 (Ne.symm hne)
    refine ⟨hv, ?_⟩
    unfold resolveHandler
    rw [hv]

/-- Witness for C1: a record whose message matches betA0 is rejected with the
message-mismatch error when presented against betB0 (different seed, hence
different canonical bytes), and the handler settles nothing. -/
theorem message_binding_C1_witness :
    verify_ed25519_signature unpackOk instrs0 7 betB0 [1, 2] =
      Except.error (ResolveError.dice DiceError.Ed25519Message) ∧
    resolveHandler unpackOk instrs0 hash50 7 betB0 [1, 2] =
      Except.error (ResolveError.dice DiceError.Ed25519Message) :=
  (message_binding_C1 unpackOk instrs0 hash50 7 betA0 betB0 [1, 2]
    (by decide)).2 (by decide)

/-- C7: verification inspects the instruction at fixed transaction position 0
and fails with the wrong-verifier kind unless that instruction is owned by
the Ed25519 program; if the program matches but the record declares auxiliary
accounts, it fails with the distinct accounts kind. -/
theorem verifier_provenance_C7 (unpack : List Nat → Option (List SigEntry))
    (instrs : List Instruction) (pk : Nat) (bet : Bet) (sig : List Nat)
    (ix : Instruction) (h0 : instrs.get? 0 = some ix) :
    (ix.program_id ≠ ed25519ProgramId →
      verify_ed25519_signature unpack instrs pk bet sig =
        Except.error (ResolveError.dice DiceError.Ed25519Program)) ∧
    (ix.program_id = ed25519ProgramId → ix.accounts ≠ [] →
      verify_ed25519_signature unpack instrs pk bet sig =
        Except.error (ResolveError.dice DiceError.Ed25519Accounts)) ∧
    DiceError.Ed25519Program ≠ DiceError.Ed25519Accounts := by
  have h0g : instrs[0]? = some ix := by simpa [List.get?_eq_getElem?] using h0
  refine ⟨fun hp => ?_, fun hp ha => ?_, by decide⟩
  · unfold verify_ed25519_signature
    simp [h0g, hp]
  · unfold verify_ed25519_signature
    simp [h0g, hp, ha]

/-- Witness for C7: a position-0 record owned by another program fails with
`Ed25519Program`; an Ed25519-owned record declaring an account fails with
`Ed25519Accounts`. -/
theorem verifier_provenance_C7_witness :
    verify_ed25519_signature unpackOk instrsWrongProg 7 betA0 [1, 2] =
      Except.error (ResolveError.dice DiceError.Ed25519Program) ∧
    verify_ed25519_signature unpackOk instrsWithAcc 7 betA0 [1, 2] =
      Except.error (ResolveError.dice DiceError.Ed25519Accounts) :=
  ⟨(verifier_provenance_C7 unpackOk instrsWrongProg 7 betA0 [1, 2]
      ⟨ed25519ProgramId + 1, [], []⟩ (by decide)).1 (by decide),
   (verifier_provenance_C7 unpackOk instrsWithAcc 7 betA0 [1, 2]
      ⟨ed25519ProgramId, [3], []⟩ (by decide)).2.1 (by decide) (by decide)⟩

/-- C6 counterexample: a wrong-entry-count failure and a signature-bytes
mismatch produce the SAME error kind `Ed25519Signature`, and a missing
message and a mismatched message produce the same kind `Ed25519Message`,
refuting the claimed distinctness of those failure kinds. -/
theorem error_kinds_C6_counterexample :
    verify_ed25519_signature unpackTwo instrs0 7 betA0 [1, 2] =
      Except.error (ResolveError.dice DiceError.Ed25519Signature) ∧
    verify_ed25519_signature unpackBadSig instrs0 7 betA0 [1, 2] =
      Except.error (ResolveError.dice DiceError.Ed25519Signature) ∧
    verify_ed25519_signature unpackTwo instrs0 7 betA0 [1, 2] =
      verify_ed25519_signature unpackBadSig instrs0 7 betA0 [1, 2] ∧
    verify_ed25519_signature unpackNoMsg instrs0 7 betA0 [1, 2] =
      Except.error (ResolveError.dice DiceError.Ed25519Message) ∧
    verify_ed25519_signature unpackBadMsg instrs0 7 betA0 [1, 2] =
      Except.error (ResolveError.dice DiceError.Ed25519Message) :=
  ⟨by decide, by decide, by decide, by decide, by decide⟩

/-- C6 amended: every verification check fails with a named `DiceError` kind,
but the kinds are shared across related checks rather than pairwise distinct:
a failed unpack yields `Ed25519DataLength`; a wrong entry count, a missing
signature field, and mismatched signature bytes all yield `Ed25519Signature`;
an unverifiable entry yields `Ed25519Header`; a missing and a mismatched
public key both yield `Ed25519Pubkey`; a missing and a mismatched message
both yield `Ed25519Message`. -/
theorem error_kinds_C6 (unpack : List Nat → Option (List SigEntry))
    (instrs : List Instruction) (pk : Nat) (bet : Bet) (sig : List Nat)
    (ix : Instruction) (e : SigEntry)
    (h0 : instrs.get? 0 = some ix) (h1 : ix.program_id = ed25519ProgramId)
    (h2 : ix.accounts = []) :
    (unpack ix.data = none →
      verify_ed25519_signature unpack instrs pk bet sig =
        Except.error (ResolveError.dice DiceError.Ed25519DataLength)) ∧
    (∀ l, unpack ix.data = some l → l.length ≠ 1 →
      verify_ed25519_signature unpack instrs pk bet sig =
        Except.error (ResolveError.dice DiceError.Ed25519Signature)) ∧
    (unpack ix.data = some [e] → e.is_verifiable = false →
      verify_ed25519_signature unpack instrs pk bet sig =
        Except.error (ResolveError.dice DiceError.Ed25519Header)) ∧
    (unpack ix.data = some [e] → e.is_verifiable = true → e.public_key = none →
      verify_ed25519_signature unpack instrs pk bet sig =
        Except.error (ResolveError.dice DiceError.Ed25519Pubkey)) ∧
    (∀ pk0, unpack ix.data = some [e] → e.is_verifiable = true →
      e.public_key = some pk0 → pk0 ≠ pk →
      verify_ed25519_signature unpack instrs pk bet sig =
        Except.error (ResolveError.dice DiceError.Ed25519Pubkey)) ∧
    (unpack ix.data = some [e] → e.is_verifiable = true →
      e.public_key = some pk → e.signature = none →
      verify_ed25519_signature unpack instrs pk bet sig =
        Except.error (ResolveError.dice DiceError.Ed25519Signature)) ∧
    (∀ s, unpack ix.data = some [e] → e.is_verifiable = true →
      e.public_key = some pk → e.signature = some s → s ≠ sig →
      verify_ed25519_signature unpack instrs pk bet sig =
        Except.error (ResolveError.dice DiceError.Ed25519Signature)) ∧
    (unpack ix.data = some [e] → e.is_verifiable = true →
      e.public_key = some pk → e.signature = some sig → e.message = none →
      verify_ed25519_signature unpack instrs pk bet sig =
        Except.error (ResolveError.dice DiceError.Ed25519Message)) ∧
    (∀ m, unpack ix.data = some [e] → e.is_verifiable = true →
      e.public_key = some pk → e.signature = some sig → e.message = some m →
      m ≠ bet.to_slice →
      verify_ed25519_signature unpack instrs pk bet sig =
        Except.error (ResolveError.dice DiceError.Ed25519Message)) := by
  have h0g : instrs[0]? = some ix := by simpa [List.get?_eq_getElem?] using h0
  refine ⟨fun hu => ?_, fun l hl hlen => ?_, fun hu hf => ?_, fun hu hf hpk => ?_,
    fun pk0 hu hf hpk hne => ?_, fun hu hf hpk hs => ?_, fun s hu hf hpk hs hne => ?_,
    fun hu hf hpk hs hm => ?_, fun m hu hf hpk hs hm hne => ?_⟩
  · unfold verify_ed25519_signature
    simp [h0g, h1, h2, hu]
  · unfold verify_ed25519_signature
    rcases l with _ | ⟨a, _ | ⟨b, t⟩⟩
    · simp [h0g, h1, h2, hl]
    · simp at hlen
    · simp [h0g, h1, h2, hl]
  · unfold verify_ed25519_signature
    simp [h0g, h1, h2, hu, hf]
  · unfold verify_ed25519_signature
    simp [h0g, h1, h2, hu, hf, hpk]
  · unfold verify_ed25519_signature
    simp [h0g, h1, h2, hu, hf, hpk, hne]
  · unfold verify_ed25519_signature
    simp [h0g, h1, h2, hu, hf, hpk, hs]
  · unfold verify_ed25519_signature
    simp [h0g, h1, h2, hu, hf, hpk, hs, hne]
  · unfold verify_ed25519_signature
    simp [h0g, h1, h2, hu, hf, hpk, hs, hm]
  · unfold verify_ed25519_signature
    simp [h0g, h1, h2, hu, hf, hpk, hs, hm, hne]

/-- Witness for the amended C6: the unparseable-payload path at a concrete
input yields `Ed25519DataLength`. -/
theorem error_kinds_C6_witness :
    verify_ed25519_signature unpackNone instrs0 7 betA0 [1, 2] =
      Except.error (ResolveError.dice DiceError.Ed25519DataLength) :=
  (error_kinds_C6 unpackNone instrs0 7 betA0 [1, 2] ix0 entryOk
    (by decide) (by decide) (by decide)).1 (by decide)

end DiceGame
